import Mathlib

/-!
Shallow embedding of the Honey & Bees Store backend
(src/main.py and src/schemas.py).

Numbers: the Python code manipulates IEEE floats, but every numeric value in
the repository (prices, ratings, quantities) is a short decimal literal; the
embedding models numbers as rationals, on which the decimal reading of the
source is exact.  Stored records are key-value lists (Python dicts with
unique keys), store collections are lists in insertion order.
-/

instance {ε α : Type} [DecidableEq ε] [DecidableEq α] : DecidableEq (Except ε α) := fun x y =>
  match x, y with
  | .ok a, .ok b =>
      if h : a = b then .isTrue (by rw [h]) else .isFalse (by simp [h])
  | .error a, .error b =>
      if h : a = b then .isTrue (by rw [h]) else .isFalse (by simp [h])
  | .ok _, .error _ => .isFalse (by simp)
  | .error _, .ok _ => .isFalse (by simp)

/-- JSON-like scalar values held in stored records and request payloads. -/
inductive Value where
  | vnull
  | vstr (s : String)
  | vnum (q : ℚ)
  | vbool (b : Bool)
deriving DecidableEq, Repr

/-- A raw document record: a key-value mapping (Python dict, unique keys). -/
abbrev RawDoc := List (String × Value)

/-- Python `d.get(key)`: the value bound to `key`, else None. -/
def dget (d : RawDoc) (k : String) : Option Value :=
  (d.find? (fun kv => kv.1 = k)).map Prod.snd

/-- Python `d.get(key, default)`. -/
def dgetD (d : RawDoc) (k : String) (dflt : Value) : Value :=
  (dget d k).getD dflt

/-- Python `float(x)` on the modelled scalars: numbers pass through, booleans
become 0 or 1, None and strings raise.  (Python also parses numeric string
literals; no record or claim in this repository involves one.) -/
def pyFloat : Value → Except String ℚ
  | .vnum q => .ok q
  | .vbool b => .ok (if b then 1 else 0)
  | .vstr _ => .error "could not convert string to float"
  | .vnull => .error "float() argument must not be None"

/-- Truncation toward zero, the behaviour of Python `int()` on a number. -/
def ratTrunc (q : ℚ) : ℤ := if 0 ≤ q then ⌊q⌋ else ⌈q⌉

/-- Python `int(x)` on the modelled scalars. -/
def pyInt : Value → Except String ℤ
  | .vnum q => .ok (ratTrunc q)
  | .vbool b => .ok (if b then 1 else 0)
  | .vstr _ => .error "invalid literal for int()"
  | .vnull => .error "int() argument must not be None"

/-- Python `bool(x)`: truthiness. -/
def pyBool : Value → Bool
  | .vnull => false
  | .vbool b => b
  | .vnum q => q != 0
  | .vstr s => s != ""

/-- Pydantic validation of a required `str` field (pydantic v2 does not
coerce non-strings to strings; a missing field or None is rejected). -/
def asStr : Option Value → Except String String
  | some (.vstr s) => .ok s
  | _ => .error "Input should be a valid string"

/-- Pydantic validation of an `Optional[str]` field. -/
def asOptStr : Option Value → Except String (Option String)
  | none => .ok none
  | some .vnull => .ok none
  | some (.vstr s) => .ok (some s)
  | some _ => .error "Input should be a valid string"

/-- Pydantic validation of a required `float` field fed from JSON. -/
def asNum : Option Value → Except String ℚ
  | some (.vnum q) => .ok q
  | _ => .error "Input should be a valid number"

/-- Pydantic validation of a required `int` field fed from JSON (a float with
integral value is accepted, as in pydantic lax mode). -/
def asInt : Option Value → Except String ℤ
  | some (.vnum q) => if q.den = 1 then .ok q.num else .error "Input should be a valid integer"
  | _ => .error "Input should be a valid integer"

/-- Python `str()` of a stored `_id` value (main.py line 74). -/
def objectIdToStr : Value → String
  | .vstr s => s
  | .vnum q => toString q
  | .vbool b => if b then "True" else "False"
  | .vnull => "None"

/-- The loop of main.py lines 72-74: stringify the `_id` binding of a raw
record, leaving every other binding unchanged. -/
def stringifyId (d : RawDoc) : RawDoc :=
  d.map (fun kv => if kv.1 = "_id" then (kv.1, Value.vstr (objectIdToStr kv.2)) else kv)

/-- The `Product` schema (src/schemas.py lines 30-42): title, description,
price, category, in_stock, image, rating, stock_qty. -/
structure Product where
  title : String
  description : Option String
  price : ℚ
  category : String
  in_stock : Bool
  image : Option String
  rating : Option ℚ
  stock_qty : Option ℤ
deriving DecidableEq, Repr

/-- Serialization of an optional string field. -/
def optStrVal : Option String → Value
  | none => .vnull
  | some s => .vstr s

/-- Serialization of an optional rational field. -/
def optNumVal : Option ℚ → Value
  | none => .vnull
  | some q => .vnum q

/-- Serialization of an optional integer field. -/
def optIntVal : Option ℤ → Value
  | none => .vnull
  | some n => .vnum (n : ℚ)

/-- `Product.model_dump()`: the serialized record, carrying exactly the eight
schema fields in declaration order. -/
def Product.modelDump (p : Product) : RawDoc :=
  [("title", Value.vstr p.title),
   ("description", optStrVal p.description),
   ("price", Value.vnum p.price),
   ("category", Value.vstr p.category),
   ("in_stock", Value.vbool p.in_stock),
   ("image", optStrVal p.image),
   ("rating", optNumVal p.rating),
   ("stock_qty", optIntVal p.stock_qty)]

/-- The defensive coercion of one raw stored record performed by
`list_products` (src/main.py lines 76-88) followed by the `Product` schema's
range validation: `title=d.get("title")`, `description=d.get("description")`,
`price=float(d.get("price", 0))`, `category=d.get("category", "honey")`,
`in_stock=bool(d.get("in_stock", True))`, `image=d.get("image")`,
`rating=float(d.get("rating", 4.8))`, `stock_qty=int(d.get("stock_qty", 10))`,
then pydantic checks `price ≥ 0`, `0 ≤ rating ≤ 5`, `stock_qty ≥ 0`. -/
def coerceProduct (d : RawDoc) : Except String Product :=
  match asStr (dget d "title") with
  | .error e => .error e
  | .ok title =>
    match asOptStr (dget d "description") with
    | .error e => .error e
    | .ok description =>
      match pyFloat (dgetD d "price" (.vnum 0)) with
      | .error e => .error e
      | .ok price =>
        match asStr (some (dgetD d "category" (.vstr "honey"))) with
        | .error e => .error e
        | .ok category =>
          let in_stock := pyBool (dgetD d "in_stock" (.vbool true))
          match asOptStr (dget d "image") with
          | .error e => .error e
          | .ok image =>
            match pyFloat (dgetD d "rating" (.vnum (24/5))) with
            | .error e => .error e
            | .ok rating =>
              match pyInt (dgetD d "stock_qty" (.vnum 10)) with
              | .error e => .error e
              | .ok stockQty =>
                if price < 0 then
                  .error "price: Input should be greater than or equal to 0"
                else if rating < 0 ∨ 5 < rating then
                  .error "rating: Input should be less than or equal to 5"
                else if stockQty < 0 then
                  .error "stock_qty: Input should be greater than or equal to 0"
                else
                  .ok ⟨title, description, price, category, in_stock, image,
                       some rating, some stockQty⟩

/-- Splitting a character list at every occurrence of a separator. -/
def splitOnChar (c : Char) : List Char → List (List Char)
  | [] => [[]]
  | x :: xs =>
    if x = c then [] :: splitOnChar c xs
    else
      match splitOnChar c xs with
      | [] => [[x]]
      | g :: gs => (x :: g) :: gs

/-- Modelled from the spec: the email-format validation performed by the
`EmailStr` type of pydantic (the email-validator package, a dependency that is
not part of this repository): exactly one `@` separating a non-empty local
part from a non-empty domain that contains a dot and neither starts nor ends
with one.  Strings without an `@`, such as "not-an-email", are rejected. -/
def isEmail (s : String) : Bool :=
  match splitOnChar '@' s.data with
  | [lp, dom] =>
      !lp.isEmpty && !dom.isEmpty && dom.contains '.' &&
      dom.head? != some '.' && dom.getLast? != some '.'
  | _ => false

/-- Python string slicing `s[:n]`. -/
def strTake (s : String) (n : ℕ) : String :=
  String.mk (s.data.take n)

/-- The `OrderItem` schema (src/schemas.py lines 44-48). -/
structure OrderItem where
  product_id : String
  title : String
  unit_price : ℚ
  quantity : ℤ
deriving DecidableEq, Repr

/-- The `CreateOrder` request model (src/main.py lines 166-171): the order
fields accepted from the client; note there is no `total` field. -/
structure CreateOrder where
  customer_name : String
  customer_email : String
  shipping_address : String
  items : List OrderItem
  notes : Option String
deriving DecidableEq, Repr

/-- An order document as persisted by `create_order` (src/main.py lines
178-180): the dumped request fields plus the server-computed total. -/
structure OrderDoc where
  customer_name : String
  customer_email : String
  shipping_address : String
  items : List OrderItem
  notes : Option String
  total : ℚ
deriving DecidableEq, Repr

/-- A raw POST /api/orders request body.  `total` models a client-supplied
extra field: pydantic ignores fields not declared on `CreateOrder`, so it is
never read by the validation below. -/
structure RawOrderReq where
  customer_name : Option Value
  customer_email : Option Value
  shipping_address : Option Value
  items : Option (List RawDoc)
  notes : Option Value
  total : Option Value
deriving DecidableEq, Repr

/-- Pydantic validation of one `OrderItem` (src/schemas.py lines 44-48):
required string `product_id` and `title`, `unit_price ≥ 0`, `quantity ≥ 1`. -/
def parseOrderItem (d : RawDoc) : Except String OrderItem :=
  match asStr (dget d "product_id") with
  | .error e => .error e
  | .ok pid =>
    match asStr (dget d "title") with
    | .error e => .error e
    | .ok title =>
      match asNum (dget d "unit_price") with
      | .error e => .error e
      | .ok up =>
        match asInt (dget d "quantity") with
        | .error e => .error e
        | .ok qty =>
          if up < 0 then .error "unit_price: Input should be greater than or equal to 0"
          else if qty < 1 then .error "quantity: Input should be greater than or equal to 1"
          else .ok ⟨pid, title, up, qty⟩

/-- Pydantic validation of a POST /api/orders body against `CreateOrder`
(src/main.py lines 166-171): required strings, `customer_email` checked
against email format, required item list, optional notes.  The `total` field
of the raw request is not declared on the model and is dropped unread. -/
def parseCreateOrder (r : RawOrderReq) : Except String CreateOrder :=
  match asStr r.customer_name with
  | .error e => .error e
  | .ok name =>
    match asStr r.customer_email with
    | .error e => .error e
    | .ok email =>
      if isEmail email then
        match asStr r.shipping_address with
        | .error e => .error e
        | .ok addr =>
          match r.items with
          | none => .error "items: Field required"
          | some ds =>
            match ds.mapM parseOrderItem with
            | .error e => .error e
            | .ok items =>
              match asOptStr r.notes with
              | .error e => .error e
              | .ok notes => .ok ⟨name, email, addr, items, notes⟩
      else .error "customer_email: value is not a valid email address"

/-- The document store: one list of records per collection used by the API,
in insertion order. -/
structure Store where
  product : List RawDoc
  order : List OrderDoc
deriving DecidableEq, Repr

/-- Modelled from the spec: `create_document("product", record)` of the
persistence layer (database.py, which is not under src/): appends the record
to the product collection and returns a newly assigned unique identifier as a
string (spec §4.2).  The identifier is modelled as the record count; the
store-assigned `_id` is prepended to the stored record. -/
def createDocumentProduct (s : Store) (d : RawDoc) : Store × String :=
  let id := toString s.product.length
  ({ s with product := s.product ++ [("_id", Value.vstr id) :: d] }, id)

/-- Modelled from the spec: `create_document("order", record)` (database.py,
not under src/): appends the order document and returns the new id (§4.2). -/
def createDocumentOrder (s : Store) (d : OrderDoc) : Store × String :=
  ({ s with order := s.order ++ [d] }, toString s.order.length)

/-- Modelled from the spec: `get_documents("product", limit)` (database.py,
not under src/): the stored records in insertion order, capped to `limit`
records when a limit is given (§4.2). -/
def getDocuments (s : Store) (limit : Option ℕ) : List RawDoc :=
  match limit with
  | none => s.product
  | some n => s.product.take n

/-- Python `round(q)`: round half to even to an integer. -/
def roundHalfEven (q : ℚ) : ℤ :=
  let f := ⌊q⌋
  if q - f < 1/2 then f
  else if 1/2 < q - f then f + 1
  else if f % 2 = 0 then f else f + 1

/-- Python `round(q, 2)` of src/main.py line 179: round half to even at two
decimal places. -/
def round2 (q : ℚ) : ℚ :=
  (roundHalfEven (q * 100) : ℚ) / 100

/-- The total computation of src/main.py line 177:
`sum(item.unit_price * item.quantity for item in order.items)`. -/
def orderTotal (items : List OrderItem) : ℚ :=
  items.foldl (fun acc it => acc + it.unit_price * (it.quantity : ℚ)) 0

/-- The success body returned by POST /api/orders (src/main.py line 181). -/
structure OrderCreated where
  id : String
  message : String
  total : ℚ
deriving DecidableEq, Repr

/-- The handler `create_order` (src/main.py lines 173-181), applied after
validation succeeded: computes the total, stores the dumped order together
with `total = round(total, 2)`, and answers with the new id, the message
"Order placed" and the rounded total. -/
def create_order (s : Store) (order : CreateOrder) : Store × OrderCreated :=
  let total := orderTotal order.items
  let doc : OrderDoc :=
    { customer_name := order.customer_name
      customer_email := order.customer_email
      shipping_address := order.shipping_address
      items := order.items
      notes := order.notes
      total := round2 total }
  let res := createDocumentOrder s doc
  (res.1, ⟨res.2, "Order placed", round2 total⟩)

/-- An HTTP outcome of POST /api/orders: a 422 validation rejection (FastAPI
rejects the body before the handler runs, persisting nothing) or the 201
created response. -/
inductive OrderResp where
  | invalid (status : ℕ) (detail : String)
  | created (status : ℕ) (body : OrderCreated)
deriving DecidableEq, Repr

/-- The POST /api/orders endpoint: pydantic validation of the raw body,
then the `create_order` handler. -/
def ordersEndpoint (s : Store) (r : RawOrderReq) : Store × OrderResp :=
  match parseCreateOrder r with
  | .error e => (s, .invalid 422 e)
  | .ok o =>
      let res := create_order s o
      (res.1, .created 201 res.2)

/-- Pydantic validation of a POST /api/products body against the `Product`
schema (src/schemas.py lines 30-42): `title`, `price`, `category` required,
schema defaults `in_stock=True`, `rating=4.8`, `stock_qty=50` for absent
optional fields, and the range constraints `price ≥ 0`, `0 ≤ rating ≤ 5`,
`stock_qty ≥ 0`. -/
def validateProduct (d : RawDoc) : Except String Product :=
  match asStr (dget d "title") with
  | .error e => .error e
  | .ok title =>
    match asOptStr (dget d "description") with
    | .error e => .error e
    | .ok description =>
      match dget d "price" with
      | none => .error "price: Field required"
      | some pv =>
      match asNum (some pv) with
      | .error e => .error e
      | .ok price =>
        match asStr (dget d "category") with
        | .error e => .error e
        | .ok category =>
          match (match dget d "in_stock" with
                 | none => Except.ok true
                 | some (.vbool b) => Except.ok b
                 | some _ => Except.error "in_stock: Input should be a valid boolean") with
          | .error e => .error e
          | .ok in_stock =>
            match asOptStr (dget d "image") with
            | .error e => .error e
            | .ok image =>
              match (match dget d "rating" with
                     | none => Except.ok (some ((24 : ℚ)/5))
                     | some .vnull => Except.ok none
                     | some (.vnum q) => Except.ok (some q)
                     | some _ => Except.error "rating: Input should be a valid number") with
              | .error e => .error e
              | .ok rating =>
                match (match dget d "stock_qty" with
                       | none => Except.ok (some (50 : ℤ))
                       | some .vnull => Except.ok none
                       | some (.vnum q) =>
                           if q.den = 1 then Except.ok (some q.num)
                           else Except.error "stock_qty: Input should be a valid integer"
                       | some _ => Except.error "stock_qty: Input should be a valid integer") with
                | .error e => .error e
                | .ok stockQty =>
                  if price < 0 then
                    .error "price: Input should be greater than or equal to 0"
                  else if rating.any (fun r => decide (r < 0) || decide (5 < r)) then
                    .error "rating: Input should be less than or equal to 5"
                  else if stockQty.any (fun n => decide (n < 0)) then
                    .error "stock_qty: Input should be greater than or equal to 0"
                  else
                    .ok ⟨title, description, price, category, in_stock, image,
                         rating, stockQty⟩

/-- An HTTP outcome of POST /api/products. -/
inductive ProductResp where
  | invalid (status : ℕ) (detail : String)
  | created (status : ℕ) (id : String) (message : String)
deriving DecidableEq, Repr

/-- The POST /api/products endpoint (src/main.py lines 96-102): pydantic
validation of the body (a 422 rejection persists nothing), then
`create_document("product", product)` and the 201 body
`{"id": inserted_id, "message": "Product created"}`. -/
def create_product (s : Store) (d : RawDoc) : Store × ProductResp :=
  match validateProduct d with
  | .error e => (s, .invalid 422 e)
  | .ok p =>
      let res := createDocumentProduct s p.modelDump
      (res.1, .created 201 res.2 "Product created")

/-- The per-record work of GET /api/products (src/main.py lines 72-88):
stringify `_id`, then coerce defensively into a `Product`. -/
def listProductsOne (d : RawDoc) : Except String Product :=
  coerceProduct (stringifyId d)

/-- The GET /api/products endpoint body (src/main.py lines 67-90): every
stored product record coerced and dumped; any failure is a 500. -/
def list_products (s : Store) : Except String (List RawDoc) :=
  (s.product.mapM listProductsOne).map (fun ps => ps.map Product.modelDump)

/-- The response of POST /api/seed. -/
structure SeedResp where
  status : ℕ
  message : String
deriving DecidableEq, Repr

/-- The four default product records of src/main.py lines 113-154. -/
def seedDefaults : List RawDoc :=
  [[("title", Value.vstr "Wildflower Honey"),
    ("description", Value.vstr "Raw, unfiltered wildflower honey with rich floral notes."),
    ("price", Value.vnum (1299/100)),
    ("category", Value.vstr "honey"),
    ("in_stock", Value.vbool true),
    ("image", Value.vstr "https://images.unsplash.com/photo-1519681393784-d120267933ba"),
    ("rating", Value.vnum (49/10)),
    ("stock_qty", Value.vnum 120)],
   [("title", Value.vstr "Beeswax Candles (Set of 3)"),
    ("description", Value.vstr "Hand-poured 100% beeswax candles with natural honey aroma."),
    ("price", Value.vnum (37/2)),
    ("category", Value.vstr "beeswax"),
    ("in_stock", Value.vbool true),
    ("image", Value.vstr "https://images.unsplash.com/photo-1505575972945-381d50a4ac7b"),
    ("rating", Value.vnum (47/10)),
    ("stock_qty", Value.vnum 80)],
   [("title", Value.vstr "Propolis Tincture"),
    ("description", Value.vstr "High-potency propolis extract for immunity support."),
    ("price", Value.vnum 22),
    ("category", Value.vstr "propolis"),
    ("in_stock", Value.vbool true),
    ("image", Value.vstr "https://images.unsplash.com/photo-1517686469429-dc1c37a393f5"),
    ("rating", Value.vnum (23/5)),
    ("stock_qty", Value.vnum 60)],
   [("title", Value.vstr "Bee Pollen Granules"),
    ("description", Value.vstr "Nutrient-rich bee pollen harvested sustainably."),
    ("price", Value.vnum (63/4)),
    ("category", Value.vstr "pollen"),
    ("in_stock", Value.vbool true),
    ("image", Value.vstr "https://images.unsplash.com/photo-1505577058444-a3dab90d4253"),
    ("rating", Value.vnum (24/5)),
    ("stock_qty", Value.vnum 95)]]

/-- The POST /api/seed endpoint `seed_products` (src/main.py lines 106-161):
fetch at most one product record; if any exists, answer "Products already
exist" without inserting; otherwise insert the four default records and
answer "Seeded default products".  Both returns carry the decorator status
201. -/
def seed_products (s : Store) : Store × SeedResp :=
  let existing := getDocuments s (some 1)
  if existing ≠ [] then (s, ⟨201, "Products already exist"⟩)
  else
    let s1 := seedDefaults.foldl (fun acc p => (createDocumentProduct acc p).1) s
    (s1, ⟨201, "Seeded default products"⟩)

/-- The process-wide database handle as seen by GET /test: absent (`db is
None`) or present with an optional `name` attribute and a
`list_collection_names()` probe that either yields the collection names or
raises (modelled as `Except`). -/
structure DBHandle where
  name : Option String
  listCollections : Except String (List String)
deriving DecidableEq, Repr

/-- The two external settings probed by os.getenv in src/main.py lines
59-60. -/
structure EnvConfig where
  databaseUrl : Option String
  databaseName : Option String
deriving DecidableEq, Repr

/-- The diagnostic body returned by GET /test (src/main.py lines 30-37). -/
structure TestResponse where
  backend : String
  database : String
  database_url : String
  database_name : String
  connection_status : String
  collections : List String
deriving DecidableEq, Repr

/-- The GET /test endpoint `test_database` (src/main.py lines 27-62): a total
function of the database state and the environment.  Every probe failure is
caught: a raising `list_collection_names` yields the diagnostic string
truncated to 50 characters (`str(e)[:50]`), the collection list is capped to
10 names, and the two settings are reported as set or not.  The endpoint
always answers 200 with the assembled body. -/
def test_database (db : Option DBHandle) (env : EnvConfig) : ℕ × TestResponse :=
  let r0 : TestResponse :=
    { backend := "✅ Running"
      database := "❌ Not Available"
      database_url := "None"
      database_name := "None"
      connection_status := "Not Connected"
      collections := [] }
  let r1 : TestResponse :=
    match db with
    | some h =>
        let ra := { r0 with
          database := "✅ Available"
          database_url := "✅ Configured"
          database_name := match h.name with | some n => n | none => "✅ Connected"
          connection_status := "Connected" }
        match h.listCollections with
        | .ok cols =>
            { ra with collections := cols.take 10, database := "✅ Connected & Working" }
        | .error e =>
            { ra with database := "⚠️  Connected but Error: " ++ strTake e 50 }
    | none => { r0 with database := "⚠️  Available but not initialized" }
  let r2 : TestResponse :=
    { r1 with
      database_url := if env.databaseUrl.isSome then "✅ Set" else "❌ Not Set"
      database_name := if env.databaseName.isSome then "✅ Set" else "❌ Not Set" }
  (200, r2)

example : coerceProduct [("title", .vstr "T"), ("price", .vnum 3),
      ("category", .vstr "honey"), ("rating", .vnum 4)]
    = .ok ⟨"T", none, 3, "honey", true, none, some 4, some 10⟩ := by decide

example : isEmail "not-an-email" = false := by decide

example : isEmail "jane@example.com" = true := by decide

example : validateProduct
    [("title", Value.vstr "A"), ("price", Value.vnum 3),
     ("category", Value.vstr "honey"), ("rating", Value.vnum 4)] =
    .ok ⟨"A", none, 3, "honey", true, none, some 4, some 50⟩ := by decide

example : validateProduct
    [("title", Value.vstr "A"), ("price", Value.vnum (-1)),
     ("category", Value.vstr "honey"), ("rating", Value.vnum 4)] =
    .error "price: Input should be greater than or equal to 0" := by decide

/-! Helper lemmas. -/

theorem dget_stringifyId (d : RawDoc) (k : String) (hk : k ≠ "_id") :
    dget (stringifyId d) k = dget d k := by
  unfold dget stringifyId
  rw [List.find?_map]
  have hpf : ((fun kv : String × Value => decide (kv.1 = k)) ∘
      (fun kv => if kv.1 = "_id" then (kv.1, Value.vstr (objectIdToStr kv.2)) else kv)) =
      (fun kv : String × Value => decide (kv.1 = k)) := by
    funext kv
    by_cases h1 : kv.1 = "_id" <;> simp [Function.comp, h1]
  rw [hpf]
  cases hfind : d.find? (fun kv => decide (kv.1 = k)) with
  | none => rfl
  | some e =>
    have hp := List.find?_some hfind
    have he : e.1 = k := by simpa using hp
    have hne : ¬ e.1 = "_id" := by rw [he]; exact hk
    simp [Option.map, hne]

theorem roundHalfEven_intCast (n : ℤ) : roundHalfEven (n : ℚ) = n := by
  simp only [roundHalfEven, Int.floor_intCast]
  norm_num

theorem round2_intCast_div (n : ℤ) : round2 ((n : ℚ) / 100) = (n : ℚ) / 100 := by
  unfold round2
  have h : ((n : ℚ)/100) * 100 = (n : ℚ) := by
    rw [div_mul_cancel₀]
    norm_num
  rw [h, roundHalfEven_intCast]

theorem round2_zero : round2 0 = 0 := by
  have h := round2_intCast_div 0
  norm_num at h
  exact h

theorem parseCreateOrder_ok_items {r : RawOrderReq} {o : CreateOrder}
    (h : parseCreateOrder r = .ok o) :
    ∃ ds, r.items = some ds ∧ ds.mapM parseOrderItem = Except.ok o.items := by
  unfold parseCreateOrder at h
  repeat' split at h
  all_goals cases h
  exact ⟨_, by assumption, by assumption⟩

/-! Claim theorems. -/

/-- C1: for every accepted order-creation request the computed total is the
sum of unit_price times quantity over the items, rounded to 2 decimal
places; for the items [(12.99, 2), (5.00, 1)] the computed total is exactly
30.98. -/
theorem c1_total_is_rounded_sum :
    (∀ (s : Store) (o : CreateOrder),
        (create_order s o).2.total = round2 (orderTotal o.items)) ∧
    (∀ s : Store,
        (create_order s ⟨"Jane Doe", "jane@example.com", "1 Hive Road",
            [⟨"p1", "Wildflower Honey", 1299/100, 2⟩,
             ⟨"p2", "Clover Honey", 5, 1⟩], none⟩).2.total = 3098/100) := by
  constructor
  · intro s o; rfl
  · intro s
    have h1 : orderTotal
        [⟨"p1", "Wildflower Honey", 1299/100, 2⟩,
         ⟨"p2", "Clover Honey", 5, 1⟩] = (3098 : ℚ)/100 := by
      simp only [orderTotal, List.foldl]
      norm_num
    have h2 : round2 ((3098:ℚ)/100) = (3098:ℚ)/100 := by
      have h3 : ((3098:ℤ):ℚ) = (3098:ℚ) := by norm_num
      have h4 := round2_intCast_div 3098
      rw [h3] at h4
      exact h4
    show round2 (orderTotal _) = 3098/100
    rw [h1, h2]

/-- C8: GET /test is a total function answering 200 for every database state
and environment; a failing collection probe is reported as the diagnostic
string truncated to 50 characters inside the body, and at most 10 collection
names are listed. -/
theorem c8_test_database_total :
    ∀ (db : Option DBHandle) (env : EnvConfig),
      (test_database db env).1 = 200 ∧
      (test_database db env).2.collections.length ≤ 10 ∧
      (∀ (h : DBHandle) (e : String), db = some h → h.listCollections = .error e →
        (test_database db env).2.database = "⚠️  Connected but Error: " ++ strTake e 50 ∧
        (strTake e 50).length ≤ 50) := by
  intro db env
  refine ⟨rfl, ?_, ?_⟩
  · match db with
    | none =>
      have hc0 : (test_database none env).2.collections = [] := rfl
      rw [hc0]
      decide
    | some h =>
      match hc : h.listCollections with
      | .ok cols =>
        have hc0 : (test_database (some h) env).2.collections = cols.take 10 := by
          unfold test_database
          dsimp only
          rw [hc]
        rw [hc0, List.length_take]
        exact min_le_left _ _
      | .error e =>
        have hc0 : (test_database (some h) env).2.collections = [] := by
          unfold test_database
          dsimp only
          rw [hc]
        rw [hc0]
        decide
  · intro h e hdb hc
    subst hdb
    constructor
    · unfold test_database
      dsimp only
      rw [hc]
    · show (String.mk (e.data.take 50)).length ≤ 50
      have hl : (String.mk (e.data.take 50)).length = (e.data.take 50).length := rfl
      rw [hl, List.length_take]
      exact min_le_left _ _

/-- C8 witness: a connected handle whose collection probe raises "boom". -/
theorem c8_witness :
    (test_database (some ⟨some "honeydb", .error "boom"⟩) ⟨none, some "honeydb"⟩).1 = 200 ∧
    (test_database (some ⟨some "honeydb", .error "boom"⟩) ⟨none, some "honeydb"⟩).2.database =
      "⚠️  Connected but Error: " ++ strTake "boom" 50 :=
  ⟨(c8_test_database_total (some ⟨some "honeydb", .error "boom"⟩) ⟨none, some "honeydb"⟩).1,
   ((c8_test_database_total (some ⟨some "honeydb", .error "boom"⟩) ⟨none, some "honeydb"⟩).2.2
      ⟨some "honeydb", .error "boom"⟩ "boom" rfl rfl).1⟩

/-- C10: every product record produced by the GET /api/products coercion
dumps to exactly the eight Product schema fields, and the store-assigned
`_id` (stringified before coercion) is absent from the dumped record. -/
theorem c10_response_has_exactly_schema_fields :
    ∀ (d : RawDoc) (p : Product),
      listProductsOne d = .ok p →
      p.modelDump.map Prod.fst =
        ["title", "description", "price", "category", "in_stock", "image",
         "rating", "stock_qty"] ∧
      dget p.modelDump "_id" = none := by
  intro d p _
  exact ⟨rfl, rfl⟩

/-- C10 witness: a stored record carrying an `_id` is coerced and its dump
has the eight schema fields and no `_id`. -/
theorem c10_witness :
    (⟨"T", none, 3, "honey", true, none, some 4, some 7⟩ : Product).modelDump.map Prod.fst =
      ["title", "description", "price", "category", "in_stock", "image",
       "rating", "stock_qty"] ∧
    dget (⟨"T", none, 3, "honey", true, none, some 4, some 7⟩ : Product).modelDump "_id" = none :=
  c10_response_has_exactly_schema_fields
    [("_id", Value.vstr "abc123"), ("title", Value.vstr "T"), ("price", Value.vnum 3),
     ("category", Value.vstr "honey"), ("rating", Value.vnum 4), ("stock_qty", Value.vnum 7)]
    ⟨"T", none, 3, "honey", true, none, some 4, some 7⟩ (by decide)

theorem coerceProduct_ok_fields {d : RawDoc} {p : Product}
    (h : coerceProduct d = .ok p) :
    asStr (dget d "title") = .ok p.title ∧
    pyFloat (dgetD d "price" (.vnum 0)) = .ok p.price ∧
    asStr (some (dgetD d "category" (.vstr "honey"))) = .ok p.category ∧
    (∃ r, pyFloat (dgetD d "rating" (.vnum (24/5))) = .ok r ∧ p.rating = some r) ∧
    (∃ n, pyInt (dgetD d "stock_qty" (.vnum 10)) = .ok n ∧ p.stock_qty = some n) := by
  unfold coerceProduct at h
  repeat' split at h
  all_goals cases h
  exact ⟨by assumption, by assumption, by assumption,
         ⟨_, by assumption, rfl⟩, ⟨_, by assumption, rfl⟩⟩

/-- C2: the total stored and returned by POST /api/orders depends only on the
items of the request: a client-supplied `total` field is dropped unread by
the endpoint, the returned total is the server-computed rounded sum, the
persisted document carries that same value, and any two accepted requests
with the same raw item list yield the same total. -/
theorem c2_total_never_from_client :
    ∀ (s : Store) (r : RawOrderReq) (v : Option Value) (o : CreateOrder),
      ordersEndpoint s { r with total := v } = ordersEndpoint s r ∧
      (parseCreateOrder r = .ok o →
        (create_order s o).2.total = round2 (orderTotal o.items) ∧
        ((create_order s o).1.order.getLast?).map OrderDoc.total
          = some (round2 (orderTotal o.items)) ∧
        (∀ (r2 : RawOrderReq) (o2 : CreateOrder),
            parseCreateOrder r2 = .ok o2 → r2.items = r.items →
            (create_order s o2).2.total = (create_order s o).2.total)) := by
  intro s r v o
  constructor
  · rfl
  · intro hp
    refine ⟨rfl, ?_, ?_⟩
    · have h3 : (create_order s o).1.order = s.order ++
          [⟨o.customer_name, o.customer_email, o.shipping_address, o.items, o.notes,
            round2 (orderTotal o.items)⟩] := rfl
      rw [h3, List.getLast?_concat]
      rfl
    · intro r2 o2 hp2 hitems
      obtain ⟨ds, hds, hmap⟩ := parseCreateOrder_ok_items hp
      obtain ⟨ds2, hds2, hmap2⟩ := parseCreateOrder_ok_items hp2
      have h1 : some ds = some ds2 := by rw [← hds, ← hds2, hitems]
      injection h1 with h1
      subst h1
      have h2 : Except.ok (ε := String) o.items = Except.ok o2.items := by
        rw [← hmap, ← hmap2]
      injection h2 with h2
      show round2 (orderTotal o2.items) = round2 (orderTotal o.items)
      rw [← h2]

/-- C2 witness: the same order request with and without a client-supplied
total of 999 gets the same endpoint result, and the computed total is the
rounded item sum. -/
theorem c2_witness :
    ordersEndpoint ⟨[], []⟩
      ⟨some (Value.vstr "Jane Doe"), some (Value.vstr "jane@example.com"),
       some (Value.vstr "1 Hive Road"),
       some [[("product_id", Value.vstr "p1"), ("title", Value.vstr "Honey"),
              ("unit_price", Value.vnum 5), ("quantity", Value.vnum 2)]],
       none, some (Value.vnum 999)⟩ =
    ordersEndpoint ⟨[], []⟩
      ⟨some (Value.vstr "Jane Doe"), some (Value.vstr "jane@example.com"),
       some (Value.vstr "1 Hive Road"),
       some [[("product_id", Value.vstr "p1"), ("title", Value.vstr "Honey"),
              ("unit_price", Value.vnum 5), ("quantity", Value.vnum 2)]],
       none, none⟩ ∧
    (create_order ⟨[], []⟩
        ⟨"Jane Doe", "jane@example.com", "1 Hive Road",
         [⟨"p1", "Honey", 5, 2⟩], none⟩).2.total =
      round2 (orderTotal [⟨"p1", "Honey", 5, 2⟩]) :=
  ⟨(c2_total_never_from_client ⟨[], []⟩
      ⟨some (Value.vstr "Jane Doe"), some (Value.vstr "jane@example.com"),
       some (Value.vstr "1 Hive Road"),
       some [[("product_id", Value.vstr "p1"), ("title", Value.vstr "Honey"),
              ("unit_price", Value.vnum 5), ("quantity", Value.vnum 2)]],
       none, none⟩
      (some (Value.vnum 999))
      ⟨"Jane Doe", "jane@example.com", "1 Hive Road", [⟨"p1", "Honey", 5, 2⟩], none⟩).1,
   ((c2_total_never_from_client ⟨[], []⟩
      ⟨some (Value.vstr "Jane Doe"), some (Value.vstr "jane@example.com"),
       some (Value.vstr "1 Hive Road"),
       some [[("product_id", Value.vstr "p1"), ("title", Value.vstr "Honey"),
              ("unit_price", Value.vnum 5), ("quantity", Value.vnum 2)]],
       none, none⟩
      (some (Value.vnum 999))
      ⟨"Jane Doe", "jane@example.com", "1 Hive Road", [⟨"p1", "Honey", 5, 2⟩], none⟩).2
      (by decide)).1⟩

/-- C3: POST /api/seed is idempotent: when fetching at most one product
record yields something, it answers "Products already exist" and changes
nothing; on an empty product collection it inserts exactly the four default
records, titled Wildflower Honey, Beeswax Candles (Set of 3), Propolis
Tincture and Bee Pollen Granules, with the fixed attribute values of
`seedDefaults`. -/
theorem c3_seed_idempotent :
    ∀ s : Store,
      (getDocuments s (some 1) ≠ [] →
        seed_products s = (s, ⟨201, "Products already exist"⟩)) ∧
      (getDocuments s (some 1) = [] →
        (seed_products s).2 = ⟨201, "Seeded default products"⟩ ∧
        (seed_products s).1.product.length = 4 ∧
        (seed_products s).1.product.map (fun d => dget d "title") =
          [some (Value.vstr "Wildflower Honey"),
           some (Value.vstr "Beeswax Candles (Set of 3)"),
           some (Value.vstr "Propolis Tincture"),
           some (Value.vstr "Bee Pollen Granules")] ∧
        (seed_products s).1.product.map (List.filter (fun kv => kv.1 != "_id")) =
          seedDefaults ∧
        (seed_products s).1.order = s.order) := by
  intro s
  constructor
  · intro h
    unfold seed_products
    rw [if_pos h]
  · intro h
    obtain ⟨prod, ord⟩ := s
    have hp : prod = [] := by
      cases prod with
      | nil => rfl
      | cons a l => simp [getDocuments, List.take] at h
    subst hp
    exact ⟨rfl, rfl, rfl, rfl, rfl⟩

/-- C3 witness: on a store with one product the seed endpoint is a no-op
with the "already exist" message; on an empty store it creates 4 records. -/
theorem c3_witness :
    seed_products ⟨[[("title", Value.vstr "Wildflower Honey")]], []⟩ =
      (⟨[[("title", Value.vstr "Wildflower Honey")]], []⟩,
       ⟨201, "Products already exist"⟩) ∧
    (seed_products ⟨[], []⟩).1.product.length = 4 :=
  ⟨(c3_seed_idempotent ⟨[[("title", Value.vstr "Wildflower Honey")]], []⟩).1 (by decide),
   ((c3_seed_idempotent ⟨[], []⟩).2 rfl).2.1⟩

/-- C9: POST /api/orders accepts an otherwise valid request whose items
sequence is empty: it is persisted with total 0 (the empty sum, rounded) and
answered with status 201, "Order placed" and total 0. -/
theorem c9_empty_items_accepted :
    ∀ (s : Store) (r : RawOrderReq) (o : CreateOrder),
      parseCreateOrder r = .ok o → o.items = [] →
      ordersEndpoint s r =
        ({ s with order := s.order ++
            [⟨o.customer_name, o.customer_email, o.shipping_address, [], o.notes, 0⟩] },
         .created 201 ⟨toString s.order.length, "Order placed", 0⟩) := by
  intro s r o hp hi
  unfold ordersEndpoint
  rw [hp]
  unfold create_order createDocumentOrder
  dsimp only
  rw [hi]
  rw [show orderTotal [] = (0:ℚ) from rfl, round2_zero]

/-- C9 witness: a concrete valid request with items = [] is created with
total 0. -/
theorem c9_witness :
    ordersEndpoint ⟨[], []⟩
        ⟨some (Value.vstr "Jane Doe"), some (Value.vstr "jane@example.com"),
         some (Value.vstr "1 Hive Road"), some [], none, none⟩ =
      (⟨[], [⟨"Jane Doe", "jane@example.com", "1 Hive Road", [], none, 0⟩]⟩,
       .created 201 ⟨"0", "Order placed", 0⟩) :=
  c9_empty_items_accepted ⟨[], []⟩
    ⟨some (Value.vstr "Jane Doe"), some (Value.vstr "jane@example.com"),
     some (Value.vstr "1 Hive Road"), some [], none, none⟩
    ⟨"Jane Doe", "jane@example.com", "1 Hive Road", [], none⟩
    (by decide) rfl

/-- C4 counterexample: a stored record without `stock_qty` comes back from
the GET /api/products coercion with stock_qty 10, not the schema default 50:
`list_products` passes the literal default 10 to `int(d.get("stock_qty", 10))`
(src/main.py line 85). -/
theorem c4_counterexample :
    (listProductsOne [("title", Value.vstr "Wildflower Honey"), ("price", Value.vnum 3),
        ("category", Value.vstr "honey"), ("rating", Value.vnum 4)]).map Product.stock_qty =
      Except.ok (some 10) ∧
    (listProductsOne [("title", Value.vstr "Wildflower Honey"), ("price", Value.vnum 3),
        ("category", Value.vstr "honey"), ("rating", Value.vnum 4)]).map Product.stock_qty ≠
      Except.ok (some 50) := by
  constructor
  · decide
  · decide

/-- C4 (amended): for every raw stored product record without a `stock_qty`
field, the GET /api/products coercion returns stock_qty 10 — the handler's
hard-coded defensive default, not the schema default 50. -/
theorem c4_stock_qty_defaults_to_ten :
    ∀ (d : RawDoc) (p : Product),
      listProductsOne d = .ok p → dget d "stock_qty" = none →
      p.stock_qty = some 10 := by
  intro d p h hnone
  have h' : coerceProduct (stringifyId d) = .ok p := h
  obtain ⟨-, -, -, -, n, hn, hp⟩ := coerceProduct_ok_fields h'
  have hd : dget (stringifyId d) "stock_qty" = none := by
    rw [dget_stringifyId _ _ (by decide), hnone]
  rw [show dgetD (stringifyId d) "stock_qty" (.vnum 10) = .vnum 10 from by
        rw [dgetD, hd]; rfl] at hn
  unfold pyInt at hn
  injection hn with hn
  have ht : ratTrunc 10 = 10 := by norm_num [ratTrunc]
  rw [hp, ← hn, ht]

/-- C4 witness: the amended default applied to a concrete record without
stock_qty. -/
theorem c4_witness :
    (⟨"Wildflower Honey", none, 3, "honey", true, none, some 4, some 10⟩ : Product).stock_qty
      = some 10 :=
  c4_stock_qty_defaults_to_ten
    [("title", Value.vstr "Wildflower Honey"), ("price", Value.vnum 3),
     ("category", Value.vstr "honey"), ("rating", Value.vnum 4)]
    ⟨"Wildflower Honey", none, 3, "honey", true, none, some 4, some 10⟩
    (by decide) rfl

/-- C5: the GET /api/products coercion is defensive about price and
category: an absent price yields 0, an absent category yields "honey", and
present stored values are passed through. -/
theorem c5_defensive_price_category :
    ∀ (d : RawDoc) (p : Product),
      listProductsOne d = .ok p →
      (dget d "price" = none → p.price = 0) ∧
      (dget d "category" = none → p.category = "honey") ∧
      (∀ q, dget d "price" = some (Value.vnum q) → p.price = q) ∧
      (∀ c, dget d "category" = some (Value.vstr c) → p.category = c) := by
  intro d p h
  have h' : coerceProduct (stringifyId d) = .ok p := h
  obtain ⟨-, hprice, hcat, -, -⟩ := coerceProduct_ok_fields h'
  refine ⟨?_, ?_, ?_, ?_⟩
  · intro hn
    have hd : dget (stringifyId d) "price" = none := by
      rw [dget_stringifyId _ _ (by decide), hn]
    rw [show dgetD (stringifyId d) "price" (.vnum 0) = Value.vnum 0 from by
          rw [dgetD, hd]; rfl] at hprice
    dsimp only [pyFloat] at hprice
    injection hprice with hh
    exact hh.symm
  · intro hn
    have hd : dget (stringifyId d) "category" = none := by
      rw [dget_stringifyId _ _ (by decide), hn]
    rw [show dgetD (stringifyId d) "category" (.vstr "honey") = Value.vstr "honey" from by
          rw [dgetD, hd]; rfl] at hcat
    dsimp only [asStr] at hcat
    injection hcat with hh
    exact hh.symm
  · intro q hq
    have hd : dget (stringifyId d) "price" = some (Value.vnum q) := by
      rw [dget_stringifyId _ _ (by decide), hq]
    rw [show dgetD (stringifyId d) "price" (.vnum 0) = Value.vnum q from by
          rw [dgetD, hd]; rfl] at hprice
    dsimp only [pyFloat] at hprice
    injection hprice with hh
    exact hh.symm
  · intro c hc
    have hd : dget (stringifyId d) "category" = some (Value.vstr c) := by
      rw [dget_stringifyId _ _ (by decide), hc]
    rw [show dgetD (stringifyId d) "category" (.vstr "honey") = Value.vstr c from by
          rw [dgetD, hd]; rfl] at hcat
    dsimp only [asStr] at hcat
    injection hcat with hh
    exact hh.symm

/-- C5 witness: a record without price and category coerces to price 0 and
category "honey"; a record with price 3 and category "beeswax" keeps them. -/
theorem c5_witness :
    ((⟨"T", none, 0, "honey", true, none, some 4, some 7⟩ : Product).price = 0 ∧
     (⟨"T", none, 0, "honey", true, none, some 4, some 7⟩ : Product).category = "honey") ∧
    (⟨"T2", none, 3, "beeswax", true, none, some 4, some 7⟩ : Product).price = 3 :=
  ⟨⟨(c5_defensive_price_category
        [("title", Value.vstr "T"), ("rating", Value.vnum 4), ("stock_qty", Value.vnum 7)]
        ⟨"T", none, 0, "honey", true, none, some 4, some 7⟩ (by decide)).1 rfl,
    (c5_defensive_price_category
        [("title", Value.vstr "T"), ("rating", Value.vnum 4), ("stock_qty", Value.vnum 7)]
        ⟨"T", none, 0, "honey", true, none, some 4, some 7⟩ (by decide)).2.1 rfl⟩,
   (c5_defensive_price_category
        [("title", Value.vstr "T2"), ("price", Value.vnum 3),
         ("category", Value.vstr "beeswax"), ("rating", Value.vnum 4),
         ("stock_qty", Value.vnum 7)]
        ⟨"T2", none, 3, "beeswax", true, none, some 4, some 7⟩ (by decide)).2.2.1 3 rfl⟩

/-- C6: POST /api/products rejects with the validation status 422 every
payload whose `price` is missing and every payload whose `price` is -1, and
in both cases the store is unchanged. -/
theorem c6_price_required_nonnegative :
    ∀ (s : Store) (d : RawDoc),
      (dget d "price" = none ∨
        ∃ q, dget d "price" = some (Value.vnum q) ∧ q < 0) →
      ∃ e, create_product s d = (s, .invalid 422 e) := by
  intro s d h
  have hv : ∃ e, validateProduct d = .error e := by
    rcases h with h | ⟨q, h, hneg⟩
    · unfold validateProduct
      rw [h]
      repeat' first
        | exact ⟨_, rfl⟩
        | split
    · unfold validateProduct
      rw [h]
      dsimp only [asNum]
      repeat' first
        | exact ⟨_, rfl⟩
        | split
  obtain ⟨e, he⟩ := hv
  refine ⟨e, ?_⟩
  unfold create_product
  rw [he]

/-- C6 witness: a payload with title and category but no price is rejected
and nothing is stored. -/
theorem c6_witness :
    ∃ e, create_product ⟨[], []⟩
        [("title", Value.vstr "Gift Box"), ("category", Value.vstr "gifts")] =
      (⟨[], []⟩, .invalid 422 e) :=
  c6_price_required_nonnegative ⟨[], []⟩
    [("title", Value.vstr "Gift Box"), ("category", Value.vstr "gifts")]
    (Or.inl rfl)

/-- C7: POST /api/orders rejects with the validation status 422 every
payload whose customer_email fails the email-format check (such as
"not-an-email"), and the store is unchanged. -/
theorem c7_malformed_email_rejected :
    ∀ (s : Store) (r : RawOrderReq) (email : String),
      r.customer_email = some (Value.vstr email) → isEmail email = false →
      ∃ e, ordersEndpoint s r = (s, .invalid 422 e) := by
  intro s r email he hbad
  have hv : ∃ e, parseCreateOrder r = .error e := by
    unfold parseCreateOrder
    rw [he]
    cases hn : asStr r.customer_name with
    | error e1 => exact ⟨e1, rfl⟩
    | ok name =>
      dsimp only [asStr]
      rw [hbad]
      exact ⟨_, rfl⟩
  obtain ⟨e, hee⟩ := hv
  refine ⟨e, ?_⟩
  unfold ordersEndpoint
  rw [hee]

/-- C7 witness: a request whose customer_email is "not-an-email" is rejected
with 422 on the empty store. -/
theorem c7_witness :
    ∃ e, ordersEndpoint ⟨[], []⟩
        ⟨some (Value.vstr "Jane Doe"), some (Value.vstr "not-an-email"),
         some (Value.vstr "1 Hive Road"), some [], none, none⟩ =
      (⟨[], []⟩, .invalid 422 e) :=
  c7_malformed_email_rejected ⟨[], []⟩
    ⟨some (Value.vstr "Jane Doe"), some (Value.vstr "not-an-email"),
     some (Value.vstr "1 Hive Road"), some [], none, none⟩
    "not-an-email" rfl (by decide)
